import Mathlib

/-
Shallow embedding of the payments engine (src/main.rs, src/transaction.rs,
src/account.rs).

Modelling choices:
  * `Amount` (a newtype over u64 counting ten-thousandths) is modelled as a
    natural number.  The spec (section 4.1) states that amounts are bounded in
    practice so that 64-bit overflow cannot occur; additions are therefore
    modelled as exact natural-number sums.  `saturating_sub` is truncated
    natural subtraction, `checked_sub` returns `none` exactly when the
    subtrahend exceeds the minuend, mirroring the u64 operations.
  * The two `HashMap`s (`accounts : HashMap<u16, Account>` and
    `disputed_transactions : HashMap<u32, Transaction>`) are modelled as
    association lists with first-occurrence lookup, in-place replacement on
    insert, and removal of the first matching key.  Starting from the empty
    map and using only these operations keeps keys unique, so this coincides
    with hash-map semantics.  Iteration order (`values()`) is modelled as
    insertion order; Rust's `HashMap` iteration order is arbitrary, and the
    one fact proved about iteration (the accumulator reset in `resolve`'s
    fold) is an order-dependent bug in the source that the modelled order
    exhibits.
  * `dispute` in the source seeks the csv reader back to the start of the
    file and scans for the first row whose `tx` field equals the disputed id
    (rows of any type, including rows after the current position).  This is
    modelled by `List.find?` over the full transaction list.
  * The f64 boundary conversions (`From<f64> for Amount` and `From<Amount>
    for f64` in src/transaction.rs) are not modelled: their accept/reject
    boundary, flooring, and round-trip behavior are determined by IEEE-754
    binary64 rounding (the guard compares against `u64::MAX as f64 / 10_000.0`
    with both conversions rounded, the product rounds before flooring, the
    `as u64` cast saturates, and the f64 sum in `From<Amount> for f64` can
    absorb the fractional term), which exact-integer/rational arithmetic does
    not capture.  The engine below therefore takes already-constructed
    amounts (integer counts of ten-thousandths) as its input.
-/

namespace PaymentsEngine

/- A fixed-precision money amount (the source's `Amount`, a newtype over u64
counting ten-thousandths) is modelled as a plain `Nat`; client ids (u16) and
transaction ids (u32) likewise. -/

/-- Source: `Amount::checked_sub`, via `u64::checked_sub`. -/
def Amount.checked_sub (a b : Nat) : Option Nat :=
  if b ≤ a then some (a - b) else none

/-- Source: `Amount::saturating_sub`, via `u64::saturating_sub`.  Natural
subtraction is already truncated at zero. -/
def Amount.saturating_sub (a b : Nat) : Nat := a - b

/-- Source: `enum TxType` in src/transaction.rs. -/
inductive TxType where
  | Deposit
  | Withdrawal
  | Dispute
  | Resolve
  | Chargeback
deriving DecidableEq, Repr

/-- Source: `struct Transaction` in src/transaction.rs. -/
structure Transaction where
  tx_type : TxType
  client : Nat
  id : Nat
  amount : Option Nat
deriving DecidableEq, Repr

/-- Source: `struct Account` in src/account.rs. -/
structure Account where
  client : Nat
  available : Nat
  held : Nat
  total : Nat
  locked : Bool
deriving DecidableEq, Repr

/-- Source: `Account::new`. -/
def Account.new (client : Nat) : Account :=
  { client := client, available := 0, held := 0, total := 0, locked := false }

/-- Association-list model of `HashMap` lookup (first occurrence). -/
def alookup {K V : Type} [DecidableEq K] : List (K × V) → K → Option V
  | [], _ => none
  | (k0, v0) :: rest, k => if k = k0 then some v0 else alookup rest k

/-- Association-list model of `HashMap::insert`: replace in place, append if
absent. -/
def aset {K V : Type} [DecidableEq K] : List (K × V) → K → V → List (K × V)
  | [], k, v => [(k, v)]
  | (k0, v0) :: rest, k, v =>
    if k = k0 then (k, v) :: rest else (k0, v0) :: aset rest k v

/-- Association-list model of `HashMap::remove` (the removal part): drop the
first entry with the given key. -/
def aerase {K V : Type} [DecidableEq K] : List (K × V) → K → List (K × V)
  | [], _ => []
  | (k0, v0) :: rest, k => if k = k0 then rest else (k0, v0) :: aerase rest k

abbrev Accounts := List (Nat × Account)

abbrev Disputed := List (Nat × Transaction)

/-- Source: `accounts.entry(c).or_insert_with(|| Account::new(c))` read as a
value: the stored account, or a fresh one for absent clients. -/
def getAccount (accounts : Accounts) (c : Nat) : Account :=
  (alookup accounts c).getD (Account.new c)

/-- Source: `fn deposit` in src/main.rs.  `transaction.amount.unwrap_or_default()`
is `Option.getD 0`. -/
def deposit (accounts : Accounts) (t : Transaction) : Accounts :=
  let a := getAccount accounts t.client
  aset accounts t.client
    { a with
      available := a.available + t.amount.getD 0
      total := a.total + t.amount.getD 0 }

/-- Source: `fn withdrawal` in src/main.rs.  The entry is created even when the
checked subtraction fails; on failure the (possibly fresh) account is stored
unchanged.  `total -= amount` only runs when `checked_sub` on `available`
succeeded; under the balance invariant `total` is then at least the amount, so
truncated subtraction models the u64 subtraction faithfully on reachable
states. -/
def withdrawal (accounts : Accounts) (t : Transaction) : Accounts :=
  let a := getAccount accounts t.client
  match Amount.checked_sub a.available (t.amount.getD 0) with
  | some available =>
    aset accounts t.client
      { a with available := available, total := a.total - t.amount.getD 0 }
  | none => aset accounts t.client a

/-- The engine state: the account table and the dispute registry
(`disputed_transactions` in src/main.rs). -/
structure EngineState where
  accounts : Accounts
  disputed_transactions : Disputed
deriving DecidableEq, Repr

/-- Source: `fn dispute` in src/main.rs, parameterised by the result of the
file rescan (`tx_iter.find(|tx| tx.id == transaction.id)`).  Note that the
account entry for the disputing client is created before the ownership and
type checks, so a rejected dispute still creates the account. -/
def dispute (found : Option Transaction) (s : EngineState) (t : Transaction) :
    EngineState :=
  match found with
  | none => s
  | some disputed_tx =>
    let a := getAccount s.accounts t.client
    if t.client ≠ disputed_tx.client then
      { s with accounts := aset s.accounts t.client a }
    else if disputed_tx.tx_type ≠ TxType.Deposit then
      { s with accounts := aset s.accounts t.client a }
    else
      let amt := disputed_tx.amount.getD 0
      { accounts :=
          aset s.accounts t.client
            { a with
              held := a.held + min a.available amt
              available := Amount.saturating_sub a.available amt }
        disputed_transactions :=
          aset s.disputed_transactions disputed_tx.id disputed_tx }

/-- Source: `fn resolve` in src/main.rs.  The fold mirrors the source exactly,
including the branch that returns `Amount(0)` (discarding the accumulator)
when an entry belongs to a different client. -/
def resolve (s : EngineState) (t : Transaction) : EngineState :=
  match alookup s.disputed_transactions t.id with
  | none => s
  | some _ =>
    let disputed1 := aerase s.disputed_transactions t.id
    let a := getAccount s.accounts t.client
    let amount_disputed := disputed1.foldl
      (fun acc p => if p.2.client = t.client then acc + p.2.amount.getD 0 else 0) 0
    let held1 := min amount_disputed a.total
    { accounts :=
        aset s.accounts t.client
          { a with held := held1, available := Amount.saturating_sub a.total held1 }
      disputed_transactions := disputed1 }

/-- Source: `fn chargeback` in src/main.rs. -/
def chargeback (s : EngineState) (t : Transaction) : EngineState :=
  match alookup s.disputed_transactions t.id with
  | none => s
  | some disputed_tx =>
    let disputed1 := aerase s.disputed_transactions t.id
    let a := getAccount s.accounts t.client
    let held1 := Amount.saturating_sub a.held (disputed_tx.amount.getD 0)
    { accounts :=
        aset s.accounts t.client
          { a with held := held1, total := held1 + a.available, locked := true }
      disputed_transactions := disputed1 }

/-- The rescan performed by `fn dispute`: first transaction in the file (rows
of any type, any position) whose id matches. -/
def findTx (txs : List Transaction) (id : Nat) : Option Transaction :=
  txs.find? (fun tx => tx.id == id)

/-- Dispatch on the transaction type (the `match transaction.tx_type` in
`process_transactions`), with the dispute rescan result passed in. -/
def applyParsed (found : Option Transaction) (s : EngineState) (t : Transaction) :
    EngineState :=
  match t.tx_type with
  | TxType.Deposit => { s with accounts := deposit s.accounts t }
  | TxType.Withdrawal => { s with accounts := withdrawal s.accounts t }
  | TxType.Dispute => dispute found s t
  | TxType.Resolve => resolve s t
  | TxType.Chargeback => chargeback s t

/-- One step of the main loop on an already-parsed stream: the dispute rescan
searches the full file. -/
def step (txs : List Transaction) (s : EngineState) (t : Transaction) :
    EngineState :=
  applyParsed (findTx txs t.id) s t

def initialState : EngineState := { accounts := [], disputed_transactions := [] }

/-- Source: `fn process_transactions`, on a stream of well-formed rows. -/
def process_transactions (txs : List Transaction) : EngineState :=
  txs.foldl (step txs) initialState

/-- State after processing the first `n` rows of the stream (dispute rescans
still see the whole file, as in the source). -/
def runPrefix (txs : List Transaction) (n : Nat) : EngineState :=
  (txs.take n).foldl (step txs) initialState

/-- The balance invariant claimed by the spec for every account. -/
def AccountInv (s : EngineState) : Prop :=
  ∀ c : Nat,
    (getAccount s.accounts c).total
      = (getAccount s.accounts c).available + (getAccount s.accounts c).held


/-- Helper for concrete streams: a deposit row. -/
def depositTx (c id amt : Nat) : Transaction :=
  { tx_type := TxType.Deposit, client := c, id := id, amount := some amt }

/-- Helper for concrete streams: a dispute row (no amount column). -/
def disputeTx (c id : Nat) : Transaction :=
  { tx_type := TxType.Dispute, client := c, id := id, amount := none }

/-- Helper for concrete streams: a resolve row (no amount column). -/
def resolveTx (c id : Nat) : Transaction :=
  { tx_type := TxType.Resolve, client := c, id := id, amount := none }

/-- Helper for concrete streams: a chargeback row (no amount column). -/
def chargebackTx (c id : Nat) : Transaction :=
  { tx_type := TxType.Chargeback, client := c, id := id, amount := none }

/-- Stream exhibiting the accumulator reset in the fold of `resolve`: when the
resolve of tx 3 runs, the registry still holds tx 1 (client 1, 50000) followed
by tx 2 (client 2, 30000). -/
def C2stream : List Transaction :=
  [depositTx 1 1 50000, depositTx 2 2 30000, depositTx 1 3 70000,
   disputeTx 1 1, disputeTx 2 2, disputeTx 1 3, resolveTx 1 3]

/-- Stream disputing the same deposit twice while available funds remain. -/
def C4stream : List Transaction :=
  [depositTx 1 1 50000, depositTx 1 2 100000, disputeTx 1 1, disputeTx 1 1]

/-- Stream with a deposit to a locked (charged-back) account. -/
def C5stream : List Transaction :=
  [depositTx 1 1 50000, disputeTx 1 1, chargebackTx 1 1, depositTx 1 2 70000]

/-- Stream where client 2 disputes client 1's deposit. -/
def C7stream : List Transaction :=
  [depositTx 1 1 50000, disputeTx 2 1]

end PaymentsEngine

namespace PaymentsEngine

theorem alookup_aset {K V : Type} [DecidableEq K] (m : List (K × V)) (k : K) (v : V)
    (x : K) : alookup (aset m k v) x = if x = k then some v else alookup m x := by
  induction m with
  | nil => simp [aset, alookup]
  | cons p rest ih =>
    obtain ⟨k0, v0⟩ := p
    by_cases h1 : k = k0
    · subst h1
      by_cases h2 : x = k <;> simp [aset, alookup, h2]
    · by_cases h2 : x = k0
      · subst h2
        have h3 : ¬ x = k := fun h => h1 h.symm
        simp [aset, alookup, h1, h3]
      · simp [aset, alookup, h1, h2, ih]

theorem getAccount_aset (m : Accounts) (k : Nat) (a : Account) (x : Nat) :
    getAccount (aset m k a) x = if x = k then a else getAccount m x := by
  unfold getAccount
  rw [alookup_aset]
  split <;> rfl

theorem aset_eq_of_lookup {K V : Type} [DecidableEq K] (m : List (K × V)) (k : K)
    (v : V) (h : alookup m k = some v) : aset m k v = m := by
  induction m with
  | nil => simp [alookup] at h
  | cons p rest ih =>
    obtain ⟨k0, v0⟩ := p
    by_cases h1 : k = k0
    · subst h1
      simp [alookup] at h
      simp [aset, h]
    · simp [alookup, h1] at h
      simp [aset, h1, ih h]

theorem getAccount_aset_same (m : Accounts) (k : Nat) (x : Nat) :
    getAccount (aset m k (getAccount m k)) x = getAccount m x := by
  rw [getAccount_aset]
  split
  · subst x; rfl
  · rfl

theorem applyParsed_preserves_inv (found : Option Transaction) (s : EngineState)
    (t : Transaction) (h : AccountInv s) : AccountInv (applyParsed found s t) := by
  intro c
  have ht := h t.client
  have hc := h c
  cases htype : t.tx_type
  case Deposit =>
    simp only [applyParsed, htype, deposit, getAccount_aset]
    split
    · dsimp only
      omega
    · exact hc
  case Withdrawal =>
    simp only [applyParsed, htype, withdrawal, Amount.checked_sub]
    split
    case _ available heq =>
      rw [getAccount_aset]
      split
      · simp only []
        split at heq
        · simp only [Option.some.injEq] at heq
          omega
        · exact absurd heq (by simp)
      · exact hc
    case _ heq =>
      rw [getAccount_aset]
      split
      · subst c; exact ht
      · exact hc
  case Dispute =>
    simp only [applyParsed, htype, dispute]
    cases found with
    | none => exact hc
    | some dtx =>
      by_cases h1 : t.client ≠ dtx.client
      · simp only [if_pos h1, getAccount_aset]
        split
        · subst c; exact ht
        · exact hc
      · by_cases h2 : dtx.tx_type ≠ TxType.Deposit
        · simp only [if_neg h1, if_pos h2, getAccount_aset]
          split
          · subst c; exact ht
          · exact hc
        · simp only [if_neg h1, if_neg h2, getAccount_aset]
          split
          · simp only [Amount.saturating_sub]
            omega
          · exact hc
  case Resolve =>
    simp only [applyParsed, htype, resolve]
    split
    · exact hc
    · rw [getAccount_aset]
      split
      · simp only [Amount.saturating_sub]
        omega
      · exact hc
  case Chargeback =>
    simp only [applyParsed, htype, chargeback]
    split
    · exact hc
    · rw [getAccount_aset]
      split
      · simp only [Amount.saturating_sub]
        omega
      · exact hc

theorem foldl_preserves_inv (txs : List Transaction) (l : List Transaction) :
    ∀ s : EngineState, AccountInv s → AccountInv (l.foldl (step txs) s) := by
  induction l with
  | nil => intro s h; exact h
  | cons t rest ih =>
    intro s h
    exact ih _ (applyParsed_preserves_inv _ _ _ h)

theorem initialState_inv : AccountInv initialState := by
  intro c
  rfl

/-- Claim C1: for every input transaction stream, every client, and every
prefix of the stream, the account satisfies `total = available + held`, and
`available`, `held`, and `total` are each non-negative (amounts are modelled
as naturals, so non-negativity is by construction and stated explicitly). -/
theorem C1_balance_invariant (txs : List Transaction) (n : Nat) (c : Nat) :
    (getAccount (runPrefix txs n).accounts c).total
        = (getAccount (runPrefix txs n).accounts c).available
          + (getAccount (runPrefix txs n).accounts c).held
      ∧ 0 ≤ (getAccount (runPrefix txs n).accounts c).available
      ∧ 0 ≤ (getAccount (runPrefix txs n).accounts c).held
      ∧ 0 ≤ (getAccount (runPrefix txs n).accounts c).total := by
  refine ⟨?_, Nat.zero_le _, Nat.zero_le _, Nat.zero_le _⟩
  exact foldl_preserves_inv txs (txs.take n) initialState initialState_inv c

end PaymentsEngine

namespace PaymentsEngine

theorem applyParsed_eq_deposit (found : Option Transaction) (s : EngineState)
    (t : Transaction) (h : t.tx_type = TxType.Deposit) :
    applyParsed found s t = { s with accounts := deposit s.accounts t } := by
  unfold applyParsed
  rw [h]

theorem applyParsed_eq_withdrawal (found : Option Transaction) (s : EngineState)
    (t : Transaction) (h : t.tx_type = TxType.Withdrawal) :
    applyParsed found s t = { s with accounts := withdrawal s.accounts t } := by
  unfold applyParsed
  rw [h]

theorem applyParsed_eq_dispute (found : Option Transaction) (s : EngineState)
    (t : Transaction) (h : t.tx_type = TxType.Dispute) :
    applyParsed found s t = dispute found s t := by
  unfold applyParsed
  rw [h]

theorem applyParsed_eq_resolve (found : Option Transaction) (s : EngineState)
    (t : Transaction) (h : t.tx_type = TxType.Resolve) :
    applyParsed found s t = resolve s t := by
  unfold applyParsed
  rw [h]

theorem applyParsed_eq_chargeback (found : Option Transaction) (s : EngineState)
    (t : Transaction) (h : t.tx_type = TxType.Chargeback) :
    applyParsed found s t = chargeback s t := by
  unfold applyParsed
  rw [h]

theorem dispute_success_eq (s : EngineState) (t dtx : Transaction)
    (h3 : dtx.client = t.client) (h4 : dtx.tx_type = TxType.Deposit) :
    dispute (some dtx) s t =
      { accounts :=
          aset s.accounts t.client
            { getAccount s.accounts t.client with
              held := (getAccount s.accounts t.client).held
                + min (getAccount s.accounts t.client).available (dtx.amount.getD 0)
              available := Amount.saturating_sub
                (getAccount s.accounts t.client).available (dtx.amount.getD 0) }
        disputed_transactions := aset s.disputed_transactions dtx.id dtx } := by
  unfold dispute
  dsimp only
  rw [if_neg (by simp [h3]), if_neg (by simp [h4])]

theorem step_dispute_success (txs : List Transaction) (s : EngineState)
    (t dtx : Transaction) (h1 : t.tx_type = TxType.Dispute)
    (h2 : findTx txs t.id = some dtx) (h3 : dtx.client = t.client)
    (h4 : dtx.tx_type = TxType.Deposit) :
    step txs s t =
      { accounts :=
          aset s.accounts t.client
            { getAccount s.accounts t.client with
              held := (getAccount s.accounts t.client).held
                + min (getAccount s.accounts t.client).available (dtx.amount.getD 0)
              available := Amount.saturating_sub
                (getAccount s.accounts t.client).available (dtx.amount.getD 0) }
        disputed_transactions := aset s.disputed_transactions dtx.id dtx } := by
  unfold step
  rw [h2, applyParsed_eq_dispute _ _ _ h1, dispute_success_eq s t dtx h3 h4]

/-- Claim C2 (code bug in `resolve`): after `C2stream`, transaction 1 of
client 1 (amount 50000) is still under dispute, so by the spec the resolve of
transaction 3 must set held = min(50000, total = 120000) = 50000 and
available = 70000; the source's fold discards its accumulator whenever it
meets another client's disputed transaction (its else branch returns
`Amount(0)` instead of `acc`), contradicting the comment above it, and yields
held = 0, available = 120000. -/
theorem C2_resolve_fold_reset :
    getAccount (process_transactions C2stream).accounts 1
      = { client := 1, available := 120000, held := 0, total := 120000, locked := false }
    ∧ alookup (process_transactions C2stream).disputed_transactions 1
      = some (depositTx 1 1 50000)
    ∧ (getAccount (process_transactions C2stream).accounts 1).held
      ≠ min 50000 (getAccount (process_transactions C2stream).accounts 1).total := by
  decide

/-- Claim C3: a Dispute event that matches a prior Deposit with the same id
and client sets held += min(available, disputed amount) and
available = saturating_sub(available, disputed amount), leaves total
unchanged, holds no more than the pre-dispute available balance, and binds
the id to the deposit record in the registry; depositing 123456789 and then
disputing it yields available 0, held 123456789, total 123456789, unlocked. -/
theorem C3_dispute_success :
    (∀ (txs : List Transaction) (s : EngineState) (t dtx : Transaction),
      t.tx_type = TxType.Dispute →
      findTx txs t.id = some dtx →
      dtx.client = t.client →
      dtx.tx_type = TxType.Deposit →
      step txs s t =
        { accounts :=
            aset s.accounts t.client
              { getAccount s.accounts t.client with
                held := (getAccount s.accounts t.client).held
                  + min (getAccount s.accounts t.client).available (dtx.amount.getD 0)
                available := Amount.saturating_sub
                  (getAccount s.accounts t.client).available (dtx.amount.getD 0) }
          disputed_transactions := aset s.disputed_transactions dtx.id dtx }
      ∧ (getAccount (step txs s t).accounts t.client).total
          = (getAccount s.accounts t.client).total
      ∧ (getAccount (step txs s t).accounts t.client).held
            - (getAccount s.accounts t.client).held
          ≤ (getAccount s.accounts t.client).available)
    ∧ process_transactions [depositTx 1 1 123456789, disputeTx 1 1]
      = { accounts := [(1, { client := 1, available := 0, held := 123456789,
                             total := 123456789, locked := false })],
          disputed_transactions := [(1, depositTx 1 1 123456789)] } := by
  constructor
  · intro txs s t dtx h1 h2 h3 h4
    have hs := step_dispute_success txs s t dtx h1 h2 h3 h4
    refine ⟨hs, ?_, ?_⟩
    · rw [hs]
      dsimp only
      rw [getAccount_aset, if_pos rfl]
    · rw [hs]
      dsimp only
      rw [getAccount_aset, if_pos rfl]
      dsimp only
      omega
  · decide

/-- Claim C3 witness: the general part instantiated on a one-deposit stream. -/
theorem C3_dispute_success_witness :
    step [depositTx 1 1 5] initialState (disputeTx 1 1)
      = { accounts :=
            aset initialState.accounts 1
              { getAccount initialState.accounts 1 with
                held := (getAccount initialState.accounts 1).held
                  + min (getAccount initialState.accounts 1).available
                      ((depositTx 1 1 5).amount.getD 0)
                available := Amount.saturating_sub
                  (getAccount initialState.accounts 1).available
                  ((depositTx 1 1 5).amount.getD 0) }
          disputed_transactions :=
            aset initialState.disputed_transactions (depositTx 1 1 5).id
              (depositTx 1 1 5) }
    ∧ (getAccount (step [depositTx 1 1 5] initialState (disputeTx 1 1)).accounts 1).total
        = (getAccount initialState.accounts 1).total
    ∧ (getAccount (step [depositTx 1 1 5] initialState (disputeTx 1 1)).accounts 1).held
          - (getAccount initialState.accounts 1).held
        ≤ (getAccount initialState.accounts 1).available :=
  C3_dispute_success.1 [depositTx 1 1 5] initialState (disputeTx 1 1)
    (depositTx 1 1 5) (by decide) (by decide) (by decide) (by decide)

/-- Claim C4 (counterexample): after `C4stream.take 3`, transaction 1 is in
the registry with 100000 still available; the fourth row disputes it again
and the account balances change (held grows by another 50000), refuting the
claim that such a Dispute event leaves the balances unchanged. -/
theorem C4_counterexample :
    alookup (runPrefix C4stream 3).disputed_transactions 1 ≠ none
    ∧ (runPrefix C4stream 4).accounts ≠ (runPrefix C4stream 3).accounts
    ∧ (getAccount (runPrefix C4stream 4).accounts 1).held
        = (getAccount (runPrefix C4stream 3).accounts 1).held + 50000 := by
  decide

/-- Claim C4 (amended): the engine never consults the Dispute Registry when
processing a Dispute event; a Dispute whose id is already registered is
matched against the file again and re-applied, moving
min(available, disputed amount) to held once more, while the registry is left
unchanged (the entry is overwritten with the same record). -/
theorem C4_redispute_moves_funds_again
    (txs : List Transaction) (s : EngineState) (t dtx : Transaction)
    (h1 : t.tx_type = TxType.Dispute) (h2 : findTx txs t.id = some dtx)
    (h3 : dtx.client = t.client) (h4 : dtx.tx_type = TxType.Deposit)
    (h5 : alookup s.disputed_transactions dtx.id = some dtx) :
    (getAccount (step txs s t).accounts t.client).held
      = (getAccount s.accounts t.client).held
        + min (getAccount s.accounts t.client).available (dtx.amount.getD 0)
    ∧ (getAccount (step txs s t).accounts t.client).available
      = Amount.saturating_sub (getAccount s.accounts t.client).available
          (dtx.amount.getD 0)
    ∧ (step txs s t).disputed_transactions = s.disputed_transactions := by
  have hs := step_dispute_success txs s t dtx h1 h2 h3 h4
  refine ⟨?_, ?_, ?_⟩
  · rw [hs]
    dsimp only
    rw [getAccount_aset, if_pos rfl]
  · rw [hs]
    dsimp only
    rw [getAccount_aset, if_pos rfl]
  · rw [hs]
    dsimp only
    exact aset_eq_of_lookup _ _ _ h5

/-- Claim C4 witness: re-disputing transaction 1 of `C4stream` from the state
after its first three rows. -/
theorem C4_redispute_witness :
    (getAccount (step C4stream (runPrefix C4stream 3) (disputeTx 1 1)).accounts 1).held
      = (getAccount (runPrefix C4stream 3).accounts 1).held
        + min (getAccount (runPrefix C4stream 3).accounts 1).available
            ((depositTx 1 1 50000).amount.getD 0)
    ∧ (getAccount (step C4stream (runPrefix C4stream 3) (disputeTx 1 1)).accounts 1).available
      = Amount.saturating_sub (getAccount (runPrefix C4stream 3).accounts 1).available
          ((depositTx 1 1 50000).amount.getD 0)
    ∧ (step C4stream (runPrefix C4stream 3) (disputeTx 1 1)).disputed_transactions
      = (runPrefix C4stream 3).disputed_transactions :=
  C4_redispute_moves_funds_again C4stream (runPrefix C4stream 3) (disputeTx 1 1)
    (depositTx 1 1 50000) (by decide) (by decide) (by decide) (by decide) (by decide)

end PaymentsEngine

namespace PaymentsEngine

theorem applyParsed_preserves_locked (found : Option Transaction) (s : EngineState)
    (t : Transaction) (c : Nat) (h : (getAccount s.accounts c).locked = true) :
    (getAccount (applyParsed found s t).accounts c).locked = true := by
  cases htype : t.tx_type
  case Deposit =>
    simp only [applyParsed, htype, deposit, getAccount_aset]
    split
    case isTrue hc => subst hc; dsimp only; exact h
    case isFalse _ => exact h
  case Withdrawal =>
    simp only [applyParsed, htype, withdrawal]
    split
    case _ available heq =>
      rw [getAccount_aset]
      split
      case isTrue hc => subst hc; dsimp only; exact h
      case isFalse _ => exact h
    case _ heq =>
      rw [getAccount_aset]
      split
      case isTrue hc => subst hc; exact h
      case isFalse _ => exact h
  case Dispute =>
    simp only [applyParsed, htype, dispute]
    cases found with
    | none => exact h
    | some dtx =>
      dsimp only
      split
      · rw [getAccount_aset]
        split
        case isTrue hc => subst hc; exact h
        case isFalse _ => exact h
      · split
        · rw [getAccount_aset]
          split
          case isTrue hc => subst hc; exact h
          case isFalse _ => exact h
        · rw [getAccount_aset]
          split
          case isTrue hc => subst hc; dsimp only; exact h
          case isFalse _ => exact h
  case Resolve =>
    simp only [applyParsed, htype, resolve]
    split
    · exact h
    · rw [getAccount_aset]
      split
      case isTrue hc => subst hc; dsimp only; exact h
      case isFalse _ => exact h
  case Chargeback =>
    simp only [applyParsed, htype, chargeback]
    split
    · exact h
    · rw [getAccount_aset]
      split
      case isTrue hc => rfl
      case isFalse _ => exact h

theorem foldl_preserves_locked (txs : List Transaction) (l : List Transaction) :
    ∀ (s : EngineState) (c : Nat), (getAccount s.accounts c).locked = true →
      (getAccount (l.foldl (step txs) s).accounts c).locked = true := by
  induction l with
  | nil => intro s c h; exact h
  | cons t rest ih =>
    intro s c h
    exact ih _ _ (applyParsed_preserves_locked _ _ _ _ h)

theorem chargeback_found_eq (s : EngineState) (t dtx : Transaction)
    (h : alookup s.disputed_transactions t.id = some dtx) :
    chargeback s t =
      { accounts :=
          aset s.accounts t.client
            { getAccount s.accounts t.client with
              held := Amount.saturating_sub (getAccount s.accounts t.client).held
                (dtx.amount.getD 0)
              total := Amount.saturating_sub (getAccount s.accounts t.client).held
                  (dtx.amount.getD 0)
                + (getAccount s.accounts t.client).available
              locked := true }
        disputed_transactions := aerase s.disputed_transactions t.id } := by
  unfold chargeback
  rw [h]

/-- Claim C5 (counterexample): after `C5stream.take 3` (deposit, dispute,
chargeback) the account is locked with zero balances, yet the fourth row, a
deposit, still changes its balances to available = total = 70000, refuting
the claim that no subsequent transaction changes a charged-back account's
balances. -/
theorem C5_counterexample :
    (getAccount (runPrefix C5stream 3).accounts 1).locked = true
    ∧ (getAccount (runPrefix C5stream 3).accounts 1).total = 0
    ∧ getAccount (runPrefix C5stream 4).accounts 1
        ≠ getAccount (runPrefix C5stream 3).accounts 1
    ∧ (getAccount (runPrefix C5stream 4).accounts 1).available = 70000 := by
  decide

/-- Claim C5 (amended): dispute then chargeback on the same id moves held to
0, recalculates total as held + available, and locks the account; once an
account is locked it stays locked for the rest of the run; but the engine
does not block locked accounts, so later deposits and withdrawals still
change the balances (see the counterexample). -/
theorem C5_chargeback_locks :
    process_transactions [depositTx 1 1 50000, disputeTx 1 1, chargebackTx 1 1]
      = { accounts := [(1, { client := 1, available := 0, held := 0, total := 0,
                             locked := true })],
          disputed_transactions := [] }
    ∧ (∀ (s : EngineState) (t dtx : Transaction),
        alookup s.disputed_transactions t.id = some dtx →
        (getAccount (chargeback s t).accounts t.client).held
            = Amount.saturating_sub (getAccount s.accounts t.client).held
                (dtx.amount.getD 0)
          ∧ (getAccount (chargeback s t).accounts t.client).total
            = (getAccount (chargeback s t).accounts t.client).held
              + (getAccount s.accounts t.client).available
          ∧ (getAccount (chargeback s t).accounts t.client).locked = true)
    ∧ (∀ (txs l : List Transaction) (s : EngineState) (c : Nat),
        (getAccount s.accounts c).locked = true →
        (getAccount (l.foldl (step txs) s).accounts c).locked = true) := by
  refine ⟨by decide, ?_, foldl_preserves_locked⟩
  intro s t dtx h
  rw [chargeback_found_eq s t dtx h]
  dsimp only
  rw [getAccount_aset, if_pos rfl]
  exact ⟨rfl, rfl, rfl⟩

/-- Claim C5 witness: the chargeback conclusions at a concrete state with an
open dispute, and locked persistence across a concrete later deposit. -/
theorem C5_chargeback_locks_witness :
    (getAccount (chargeback
        { accounts := [(1, { client := 1, available := 0, held := 5, total := 5,
                             locked := false })],
          disputed_transactions := [(1, depositTx 1 1 5)] }
        (chargebackTx 1 1)).accounts 1).locked = true
    ∧ (getAccount ([depositTx 1 2 7].foldl (step [])
        { accounts := [(1, { client := 1, available := 0, held := 0, total := 0,
                             locked := true })],
          disputed_transactions := [] }).accounts 1).locked = true :=
  ⟨(C5_chargeback_locks.2.1
      { accounts := [(1, { client := 1, available := 0, held := 5, total := 5,
                           locked := false })],
        disputed_transactions := [(1, depositTx 1 1 5)] }
      (chargebackTx 1 1) (depositTx 1 1 5) (by decide)).2.2,
   C5_chargeback_locks.2.2 [] [depositTx 1 2 7]
      { accounts := [(1, { client := 1, available := 0, held := 0, total := 0,
                           locked := true })],
        disputed_transactions := [] } 1 (by decide)⟩

/-- Claim C6: a withdrawal exceeding the available balance leaves every
account's observable state unchanged (and the account table itself unchanged
whenever the client already has an entry; for an absent client the source
still creates a fresh zero account via `entry(...).or_insert_with`), and a
resolve or chargeback whose id has no open dispute returns the engine state
bit-identical, so processing of subsequent records continues from the same
state. -/
theorem C6_rejections_are_noops :
    (∀ (accounts : Accounts) (t : Transaction),
      (getAccount accounts t.client).available < t.amount.getD 0 →
      (∀ c, getAccount (withdrawal accounts t) c = getAccount accounts c)
      ∧ (∀ a, alookup accounts t.client = some a → withdrawal accounts t = accounts))
    ∧ (∀ (s : EngineState) (t : Transaction),
      alookup s.disputed_transactions t.id = none →
      resolve s t = s ∧ chargeback s t = s) := by
  constructor
  · intro accounts t h
    have hnone : Amount.checked_sub (getAccount accounts t.client).available
        (t.amount.getD 0) = none := by
      unfold Amount.checked_sub
      rw [if_neg (by omega)]
    constructor
    · intro c
      unfold withdrawal
      dsimp only
      rw [hnone]
      exact getAccount_aset_same accounts t.client c
    · intro a ha
      unfold withdrawal
      dsimp only
      rw [hnone]
      have : getAccount accounts t.client = a := by
        unfold getAccount
        rw [ha]
        rfl
      rw [this]
      exact aset_eq_of_lookup accounts t.client a ha
  · intro s t h
    constructor
    · unfold resolve
      rw [h]
    · unfold chargeback
      rw [h]

/-- Claim C6 witness: a withdrawal of 7 against an account holding 5, and a
resolve and chargeback against an empty registry. -/
theorem C6_rejections_witness :
    (∀ c, getAccount (withdrawal
        [(1, { client := 1, available := 5, held := 0, total := 5, locked := false })]
        { tx_type := TxType.Withdrawal, client := 1, id := 2, amount := some 7 }) c
      = getAccount
        [(1, { client := 1, available := 5, held := 0, total := 5, locked := false })] c)
    ∧ resolve initialState (resolveTx 1 1) = initialState
    ∧ chargeback initialState (chargebackTx 1 1) = initialState :=
  ⟨(C6_rejections_are_noops.1
      [(1, { client := 1, available := 5, held := 0, total := 5, locked := false })]
      { tx_type := TxType.Withdrawal, client := 1, id := 2, amount := some 7 }
      (by decide)).1,
   (C6_rejections_are_noops.2 initialState (resolveTx 1 1) (by decide)).1,
   (C6_rejections_are_noops.2 initialState (chargebackTx 1 1) (by decide)).2⟩

/-- Claim C7 (counterexample): in `C7stream`, client 2 disputes client 1's
deposit.  The dispute is rejected and the registry is unchanged, but the
account table is not exactly as before: a fresh zero-balance account for
client 2 now exists where none did. -/
theorem C7_counterexample :
    alookup (runPrefix C7stream 1).accounts 2 = none
    ∧ alookup (runPrefix C7stream 2).accounts 2 = some (Account.new 2)
    ∧ (runPrefix C7stream 2).disputed_transactions
        = (runPrefix C7stream 1).disputed_transactions := by
  decide

/-- Claim C7 (amended): a Dispute event whose client does not own the matched
transaction, or whose matched transaction is not a Deposit, leaves the
Dispute Registry and every account's balances and locked flag unchanged, but
it first runs `entry(...).or_insert_with(Account::new)`, so a zero-balance
account is created for the disputing client if absent. -/
theorem C7_rejected_dispute (txs : List Transaction) (s : EngineState)
    (t dtx : Transaction) (h1 : t.tx_type = TxType.Dispute)
    (h2 : findTx txs t.id = some dtx)
    (h3 : t.client ≠ dtx.client ∨ dtx.tx_type ≠ TxType.Deposit) :
    step txs s t
      = { s with accounts := aset s.accounts t.client (getAccount s.accounts t.client) }
    ∧ (∀ c, getAccount (step txs s t).accounts c = getAccount s.accounts c)
    ∧ (step txs s t).disputed_transactions = s.disputed_transactions := by
  have hd : step txs s t
      = { s with accounts := aset s.accounts t.client (getAccount s.accounts t.client) } := by
    unfold step
    rw [h2, applyParsed_eq_dispute _ _ _ h1]
    unfold dispute
    dsimp only
    by_cases hc : t.client ≠ dtx.client
    · rw [if_pos hc]
    · rw [if_neg hc]
      cases h3 with
      | inl hl => exact absurd hl hc
      | inr hr => rw [if_pos hr]
  refine ⟨hd, ?_, ?_⟩
  · intro c
    rw [hd]
    exact getAccount_aset_same s.accounts t.client c
  · rw [hd]

/-- Claim C7 witness: the rejected-dispute conclusions at the second row of
`C7stream`. -/
theorem C7_rejected_dispute_witness :
    step C7stream (runPrefix C7stream 1) (disputeTx 2 1)
      = { runPrefix C7stream 1 with
          accounts := aset (runPrefix C7stream 1).accounts 2
            (getAccount (runPrefix C7stream 1).accounts 2) }
    ∧ (∀ c, getAccount (step C7stream (runPrefix C7stream 1) (disputeTx 2 1)).accounts c
        = getAccount (runPrefix C7stream 1).accounts c)
    ∧ (step C7stream (runPrefix C7stream 1) (disputeTx 2 1)).disputed_transactions
      = (runPrefix C7stream 1).disputed_transactions :=
  C7_rejected_dispute C7stream (runPrefix C7stream 1) (disputeTx 2 1)
    (depositTx 1 1 50000) (by decide) (by decide) (Or.inl (by decide))

end PaymentsEngine

namespace PaymentsEngine

theorem resolve_found_eq (s : EngineState) (t dtx : Transaction)
    (h : alookup s.disputed_transactions t.id = some dtx) :
    resolve s t =
      { accounts :=
          aset s.accounts t.client
            { getAccount s.accounts t.client with
              held := min ((aerase s.disputed_transactions t.id).foldl
                  (fun acc p => if p.2.client = t.client
                    then acc + p.2.amount.getD 0 else 0) 0)
                (getAccount s.accounts t.client).total
              available := Amount.saturating_sub
                (getAccount s.accounts t.client).total
                (min ((aerase s.disputed_transactions t.id).foldl
                    (fun acc p => if p.2.client = t.client
                      then acc + p.2.amount.getD 0 else 0) 0)
                  (getAccount s.accounts t.client).total) }
        disputed_transactions := aerase s.disputed_transactions t.id } := by
  unfold resolve
  rw [h]

/-- Claim C10: resolve and chargeback act on the account of the client named
in the event with no ownership check: when the registry binds an id to a
deposit of client A and the event names a different client B, the dispute is
removed from the registry, client A's account is untouched, and client B's
account is mutated (and, for chargeback, locked; a zero-balance account is
created for B if absent). -/
theorem C10_no_ownership_check :
    (∀ (s : EngineState) (t dtx : Transaction),
      alookup s.disputed_transactions t.id = some dtx →
      dtx.client ≠ t.client →
      (chargeback s t).disputed_transactions = aerase s.disputed_transactions t.id
      ∧ getAccount (chargeback s t).accounts dtx.client
          = getAccount s.accounts dtx.client
      ∧ (getAccount (chargeback s t).accounts t.client).held
          = Amount.saturating_sub (getAccount s.accounts t.client).held
              (dtx.amount.getD 0)
      ∧ (getAccount (chargeback s t).accounts t.client).locked = true
      ∧ (alookup s.accounts t.client = none →
          alookup (chargeback s t).accounts t.client
            = some { client := t.client, available := 0, held := 0, total := 0,
                     locked := true }))
    ∧ (∀ (s : EngineState) (t dtx : Transaction),
      alookup s.disputed_transactions t.id = some dtx →
      dtx.client ≠ t.client →
      (resolve s t).disputed_transactions = aerase s.disputed_transactions t.id
      ∧ getAccount (resolve s t).accounts dtx.client
          = getAccount s.accounts dtx.client
      ∧ (getAccount (resolve s t).accounts t.client).held
          = min ((aerase s.disputed_transactions t.id).foldl
              (fun acc p => if p.2.client = t.client
                then acc + p.2.amount.getD 0 else 0) 0)
            (getAccount s.accounts t.client).total
      ∧ (getAccount (resolve s t).accounts t.client).available
          = Amount.saturating_sub (getAccount s.accounts t.client).total
              (getAccount (resolve s t).accounts t.client).held) := by
  constructor
  · intro s t dtx h hne
    have hc := chargeback_found_eq s t dtx h
    refine ⟨by rw [hc], ?_, ?_, ?_, ?_⟩
    · rw [hc]
      dsimp only
      rw [getAccount_aset, if_neg hne]
    · rw [hc]
      dsimp only
      rw [getAccount_aset, if_pos rfl]
    · rw [hc]
      dsimp only
      rw [getAccount_aset, if_pos rfl]
    · intro h0
      have hga : getAccount s.accounts t.client = Account.new t.client := by
        unfold getAccount
        rw [h0]
        rfl
      rw [hc]
      dsimp only
      rw [alookup_aset, if_pos rfl, hga]
      simp [Account.new, Amount.saturating_sub]
  · intro s t dtx h hne
    have hr := resolve_found_eq s t dtx h
    refine ⟨by rw [hr], ?_, ?_, ?_⟩
    · rw [hr]
      dsimp only
      rw [getAccount_aset, if_neg hne]
    · rw [hr]
      dsimp only
      rw [getAccount_aset, if_pos rfl]
    · rw [hr]
      dsimp only
      rw [getAccount_aset, if_pos rfl]

/-- Claim C10 witness: client 2 charges back and client 3 resolves disputes
registered for deposits of client 1. -/
theorem C10_no_ownership_check_witness :
    (chargeback
        { accounts := [(1, { client := 1, available := 0, held := 5, total := 5,
                             locked := false })],
          disputed_transactions := [(1, depositTx 1 1 5)] }
        (chargebackTx 2 1)).disputed_transactions = []
    ∧ alookup (chargeback
        { accounts := [(1, { client := 1, available := 0, held := 5, total := 5,
                             locked := false })],
          disputed_transactions := [(1, depositTx 1 1 5)] }
        (chargebackTx 2 1)).accounts 2
      = some { client := 2, available := 0, held := 0, total := 0, locked := true }
    ∧ (getAccount (resolve
        { accounts := [(1, { client := 1, available := 0, held := 5, total := 5,
                             locked := false })],
          disputed_transactions := [(1, depositTx 1 1 5)] }
        (resolveTx 3 1)).accounts 3).held
      = min (([] : Disputed).foldl
          (fun acc p => if p.2.client = 3 then acc + p.2.amount.getD 0 else 0) 0)
        (getAccount [(1, { client := 1, available := 0, held := 5, total := 5,
                           locked := false })] 3).total := by
  refine ⟨?_, ?_, ?_⟩
  · exact (C10_no_ownership_check.1
      { accounts := [(1, { client := 1, available := 0, held := 5, total := 5,
                           locked := false })],
        disputed_transactions := [(1, depositTx 1 1 5)] }
      (chargebackTx 2 1) (depositTx 1 1 5) (by decide) (by decide)).1
  · exact (C10_no_ownership_check.1
      { accounts := [(1, { client := 1, available := 0, held := 5, total := 5,
                           locked := false })],
        disputed_transactions := [(1, depositTx 1 1 5)] }
      (chargebackTx 2 1) (depositTx 1 1 5) (by decide) (by decide)).2.2.2.2 rfl
  · exact (C10_no_ownership_check.2
      { accounts := [(1, { client := 1, available := 0, held := 5, total := 5,
                           locked := false })],
        disputed_transactions := [(1, depositTx 1 1 5)] }
      (resolveTx 3 1) (depositTx 1 1 5) (by decide) (by decide)).2.2.1

end PaymentsEngine
